import Mathlib

/-!
Verification model of the appdaemon apps repository (state_monitor.py,
device_abnormal_state_monitor.py, percent_scheduler.py).

The Python code is shallowly embedded: pure helpers become Lean functions,
Python exceptions become an explicit `Except PyExc` result, the mutable
monitor object together with the host platform (timer queue, notification
service, clock) becomes an explicit `World` record threaded through the
transition functions, and a run of the app is a fold of a step function
over a list of external events.
-/

namespace AppMon

/-- The Python exception classes that the embedded code raises or catches. -/
inductive PyExc
  | valueError
  | typeError
  | attributeError
  | keyError
deriving DecidableEq, Repr

/-- Python values flowing through the checkers: strings, ints, and the
distinguished sentinel objects produced by boltons make_sentinel. -/
inductive PyVal
  | str (s : String)
  | int (n : Int)
  | sentinel (name : String)
deriving DecidableEq, Repr

/-- Parse a list of decimal digit characters as a natural number;
`none` when empty or when any character is not a digit. -/
def parseNatDigits (l : List Char) : Option Nat :=
  if l.isEmpty then none
  else if l.all Char.isDigit then
    some (l.foldl (fun a c => a * 10 + (c.toNat - 48)) 0)
  else none

/-- Exact decimal number `mant / 10 ^ exp`.  This models the float values
the repository feeds through its converters; CPython floats round to
binary, but on these inputs integer truncation of the exact decimal and
of the rounded float coincide. -/
structure Dec where
  mant : Int
  exp : Nat
deriving DecidableEq, Repr

/-- Model of Python float() on plain decimal literals: optional sign,
integer part, optional fractional part.  Exponents and the special
words (inf, nan) are outside the fragment the repository feeds it. -/
def parseDecimalString (s : String) : Option Dec :=
  let core : List Char → Option Dec := fun body =>
    match body.splitOn '.' with
    | [ip] => (parseNatDigits ip).map (fun n => Dec.mk (n : Int) 0)
    | [ip, fp] =>
      if ip.isEmpty && fp.isEmpty then none
      else
        let ipn := if ip.isEmpty then some 0 else parseNatDigits ip
        let fpn := if fp.isEmpty then some 0 else parseNatDigits fp
        match ipn, fpn with
        | some a, some b => some (Dec.mk ((a * 10 ^ fp.length + b : Nat) : Int) fp.length)
        | _, _ => none
    | _ => none
  match s.data with
  | '-' :: rest => (core rest).map (fun d => Dec.mk (-d.mant) d.exp)
  | '+' :: rest => core rest
  | body => core body

/-- Python float(x): numbers pass through, strings are parsed
(ValueError on malformed text), other objects raise TypeError. -/
def pyFloat (v : PyVal) : Except PyExc Dec :=
  match v with
  | PyVal.int n => Except.ok (Dec.mk n 0)
  | PyVal.str s =>
    match parseDecimalString s with
    | some d => Except.ok d
    | none => Except.error PyExc.valueError
  | PyVal.sentinel _ => Except.error PyExc.typeError

/-- Python int() applied to a float truncates toward zero. -/
def pyIntTrunc (d : Dec) : Int := Int.tdiv d.mant ((10 : Int) ^ d.exp)

/-- The converter `lambda x: int(float(x))` used throughout ENTITY_STATES. -/
def intFloatConverter (v : PyVal) : Except PyExc PyVal :=
  match pyFloat v with
  | Except.ok d => Except.ok (PyVal.int (pyIntTrunc d))
  | Except.error e => Except.error e

/-- Python operator.gt on the embedded value fragment: int/int and str/str
compare, mixed or sentinel operands raise TypeError. -/
def pyGt (a b : PyVal) : Except PyExc Bool :=
  match a, b with
  | PyVal.int x, PyVal.int y => Except.ok (decide (y < x))
  | PyVal.str x, PyVal.str y => Except.ok (decide (y < x))
  | _, _ => Except.error PyExc.typeError

/-- state_monitor.py it_is.get_is_ok: apply the converter to the actual
value catching ValueError (falling back to the raw value), then apply the
comparison operator catching TypeError (reporting False).  The converter
and operator are parameters, as in the source they are arbitrary callables. -/
def it_is_get_is_ok (converter : PyVal → Except PyExc PyVal)
    (operation : PyVal → PyVal → Except PyExc Bool)
    (expected_val : PyVal) (actual_val : PyVal) : Except PyExc Bool :=
  let convRes : Except PyExc PyVal :=
    match converter actual_val with
    | Except.ok v => Except.ok v
    | Except.error PyExc.valueError => Except.ok actual_val
    | Except.error e => Except.error e
  match convRes with
  | Except.error e => Except.error e
  | Except.ok converted =>
    match operation converted expected_val with
    | Except.ok b => Except.ok b
    | Except.error PyExc.typeError => Except.ok false
    | Except.error e => Except.error e

/-- An entity snapshot as seen through attrgetter: either a plain value
(no attributes) or an object with named attributes. -/
inductive Snap
  | val (v : PyVal)
  | obj (fields : List (String × Snap))

/-- Look up a field name in an object field list. -/
def lookupField : List (String × Snap) → String → Option Snap
  | [], _ => none
  | (k, s) :: rest, a => if k = a then some s else lookupField rest a

/-- operator.attrgetter walking one attribute name at a time;
a missing attribute raises AttributeError. -/
def getAttrPath : Snap → List String → Except PyExc Snap
  | s, [] => Except.ok s
  | Snap.val _, _ :: _ => Except.error PyExc.attributeError
  | Snap.obj fs, a :: rest =>
    match lookupField fs a with
    | none => Except.error PyExc.attributeError
    | some s => getAttrPath s rest

/-- Python str.split on the dot character, at the character-list level. -/
def splitPath (s : String) : List String :=
  (s.data.splitOn '.').map (fun l => String.mk l)

/-- state_monitor.py get_nested_attr: attrgetter over the dotted path;
on AttributeError return the default when one was given (`some d`),
re-raise when the DEFAULT sentinel is still in place (`none`). -/
def get_nested_attr (obj : Snap) (attrName : String) (default : Option Snap) :
    Except PyExc Snap :=
  match getAttrPath obj (splitPath attrName) with
  | Except.ok v => Except.ok v
  | Except.error e =>
    match default with
    | some d => Except.ok d
    | none => Except.error e

/-- The NOT_FOUND sentinel StateMonitor passes as the resolver default. -/
def NOT_FOUND : Snap := Snap.val (PyVal.sentinel "NOT_FOUND")

/-- percent_scheduler.py SECONDS_PER_DAY, over exact rationals. -/
def SECONDS_PER_DAY : Rat := 24 * 60 * 60

/-- percent_scheduler.py get_seconds_off_per_on_second. -/
def get_seconds_off_per_on_second (percent : Rat) : Rat :=
  let on_seconds := percent * SECONDS_PER_DAY
  let off_seconds := SECONDS_PER_DAY - on_seconds
  off_seconds / on_seconds

/-- percent_scheduler.py get_on_off_time. -/
def get_on_off_time (percent : Rat) (min_on_seconds : Rat := 60) : Rat × Rat :=
  (min_on_seconds, get_seconds_off_per_on_second percent * min_on_seconds)

/-!
## The StateMonitor model

state_monitor.py StateMonitor.  The mutable instance attributes
`current_failures` and `scheduled_re_checks` (Python dicts keyed by the
descriptor id) become functions `Nat → Option Nat`; the host platform
(outstanding run_in timers, the notification service, datetime.now) is
part of the same explicit `World` record.  Whether a checker evaluation
passes depends on the external entity snapshot at that moment, so each
event of a run carries the pass/fail verdict and message that
`StateMonitor.is_ok` produced for it.
-/

/-- state_monitor.py EntityState: the static watch descriptor.
The source declares id as Optional int filled in at startup; the monitor
asserts is_setup before running, so the model uses the plain Nat. -/
structure ES where
  entity : String
  entity_attr : String
  fail_delay : Nat
  id : Nat
deriving DecidableEq, Repr

/-- One call_service notify invocation.  isFailKind true is the
Abnormal State title, false the Re-Enter Normal State title; tag is the
data tag (the descriptor id); elapsed is the failed-for duration that
do_ok_notify interpolates into a recovery message; wasAlreadyFailed
records whether the descriptor was in the failure table when the
triggering evaluation was handled (before any table mutation). -/
structure Notification where
  isFailKind : Bool
  tag : Nat
  msg : String
  elapsed : Option Int
  wasAlreadyFailed : Bool
deriving DecidableEq, Repr

/-- Pointwise insert into a dict modelled as a function. -/
def mapInsert (m : Nat → Option Nat) (k : Nat) (v : Nat) : Nat → Option Nat :=
  fun j => if j = k then some v else m j

/-- Pointwise removal from a dict modelled as a function. -/
def mapErase (m : Nat → Option Nat) (k : Nat) : Nat → Option Nat :=
  fun j => if j = k then none else m j

/-- The monitor instance state plus the host platform it drives:
the two dicts, the platform timer queue (handle, descriptor) with the
next fresh run_in handle, the wall clock, and the notifications sent. -/
structure World where
  current_failures : Nat → Option Nat
  scheduled_re_checks : Nat → Option Nat
  timers : List (Nat × ES)
  nextHandle : Nat
  now : Nat
  notifications : List Notification

/-- StateMonitor.is_currently_failed. -/
def is_currently_failed (w : World) (es : ES) : Bool :=
  (w.current_failures es.id).isSome

/-- StateMonitor.do_fail_notify: one notify call with the fail title and
the descriptor id as tag. -/
def do_fail_notify (w : World) (es : ES) (msg : String) (wasFailed : Bool) : World :=
  { w with notifications :=
      w.notifications ++ [Notification.mk true es.id msg none wasFailed] }

/-- StateMonitor.do_ok_notify: reads the stored failure timestamp via
get_failed (KeyError when absent), computes elapsed = now minus that
timestamp, and sends one notify call with the recovery title. -/
def do_ok_notify (w : World) (es : ES) (msg : String) : Except PyExc World :=
  match w.current_failures es.id with
  | none => Except.error PyExc.keyError
  | some t0 =>
    Except.ok { w with notifications :=
      w.notifications ++
        [Notification.mk false es.id msg (some ((w.now : Int) - (t0 : Int))) false] }

/-- StateMonitor.add_failed: record the failure time unless already failed. -/
def add_failed (w : World) (es : ES) : World :=
  if is_currently_failed w es then w
  else { w with current_failures := mapInsert w.current_failures es.id w.now }

/-- StateMonitor.pop_failed (call sites guard against the missing key). -/
def pop_failed (w : World) (es : ES) : World :=
  { w with current_failures := mapErase w.current_failures es.id }

/-- StateMonitor.schedule_re_check: run_in registers a platform timer and
the returned handle is stored in scheduled_re_checks, replacing any
previous value at that key. -/
def schedule_re_check (w : World) (es : ES) : World :=
  { w with
    timers := w.timers ++ [(w.nextHandle, es)],
    nextHandle := w.nextHandle + 1,
    scheduled_re_checks := mapInsert w.scheduled_re_checks es.id w.nextHandle }

/-- appdaemon cancel_timer: drop the platform timer with that handle;
a no-op when the handle already fired. -/
def cancel_timer (w : World) (h : Nat) : World :=
  { w with timers := w.timers.filter (fun p => p.1 != h) }

/-- StateMonitor.unschedule_re_check: when an entry exists, pop it and
cancel the popped handle. -/
def unschedule_re_check (w : World) (es : ES) : World :=
  match w.scheduled_re_checks es.id with
  | none => w
  | some h =>
    cancel_timer
      { w with scheduled_re_checks := mapErase w.scheduled_re_checks es.id } h

/-- StateMonitor.do_entity_check, with the verdict and message that
is_ok returned for the current snapshot passed in as isOk and msg. -/
def do_entity_check (w : World) (es : ES) (isOk : Bool) (msg : String) : World :=
  if isOk && is_currently_failed w es then
    match do_ok_notify w es msg with
    | Except.error _ => w
    | Except.ok w1 => unschedule_re_check (pop_failed w1 es) es
  else if isOk then
    w
  else if is_currently_failed w es then
    do_fail_notify w es msg true
  else
    schedule_re_check w es

/-- StateMonitor.re_check, the debounce timer callback.  It starts with
scheduled_re_checks.pop(es.id), which raises KeyError when the entry is
gone; then it re-evaluates (verdict passed in as isOk), logging on PASS
and recording the failure plus notifying on FAIL. -/
def re_check (w : World) (es : ES) (isOk : Bool) (msg : String) :
    Except PyExc World :=
  match w.scheduled_re_checks es.id with
  | none => Except.error PyExc.keyError
  | some _ =>
    let w1 := { w with scheduled_re_checks := mapErase w.scheduled_re_checks es.id }
    if isOk then
      Except.ok w1
    else
      let wasFailed := is_currently_failed w1 es
      Except.ok (do_fail_notify (add_failed w1 es) es msg wasFailed)

/-- Find the descriptor attached to an outstanding platform timer. -/
def timerLookup : List (Nat × ES) → Nat → Option ES
  | [], _ => none
  | (h, es) :: rest, j => if h = j then some es else timerLookup rest j

/-- External stimuli: a state-change event for a descriptor (carrying the
verdict its evaluation produces), a platform timer firing by handle
(carrying the verdict of the fresh evaluation at that moment), and the
wall clock advancing. -/
inductive Event
  | change (es : ES) (isOk : Bool) (msg : String)
  | timerFire (h : Nat) (isOk : Bool) (msg : String)
  | tick (dt : Nat)
deriving Repr

/-- One host-loop callback.  A timer fires at most once: the platform
removes it from the queue before invoking re_check; an exception from
the callback is swallowed by the appdaemon dispatcher, leaving the
monitor state as it was when the exception was raised. -/
def step (w : World) (e : Event) : World :=
  match e with
  | Event.tick dt => { w with now := w.now + dt }
  | Event.change es isOk msg => do_entity_check w es isOk msg
  | Event.timerFire h isOk msg =>
    match timerLookup w.timers h with
    | none => w
    | some es =>
      let w1 := { w with timers := w.timers.filter (fun p => p.1 != h) }
      match re_check w1 es isOk msg with
      | Except.ok w2 => w2
      | Except.error _ => w1

/-- The state StateMonitor.initialize builds: both dicts empty. -/
def initWorld : World :=
  World.mk (fun _ => none) (fun _ => none) [] 0 0 []

/-- A whole run of the app over a list of external events. -/
def run (evts : List Event) : World :=
  evts.foldl step initWorld

/-!
## Notification sequences

Helpers to state the no-duplicate-alerts property: the sub-sequence of
notifications tagged with one descriptor id, and the condition that two
adjacent ones of the same kind only occur as a failure re-emitted while
the descriptor was already in the failure table.
-/

/-- The notifications tagged with a given descriptor id, oldest first. -/
def notifsFor (id : Nat) (l : List Notification) : List Notification :=
  l.filter (fun n => decide (n.tag = id))

/-- An adjacent pair is acceptable when the kinds differ, or when the
later one is a failure re-emitted while already failed. -/
def sameKindOk (a b : Notification) : Bool :=
  (a.isFailKind != b.isFailKind) || (b.isFailKind && b.wasAlreadyFailed)

/-- Every adjacent pair of the list is acceptable. -/
def goodSeq : List Notification → Bool
  | a :: b :: rest => sameKindOk a b && goodSeq (b :: rest)
  | _ => true

/-- The kind of the most recent notification for a descriptor id. -/
def lastIsFail (l : List Notification) (id : Nat) : Option Bool :=
  ((notifsFor id l).getLast?).map (fun n => n.isFailKind)

/-!
## The reachable-state invariant

For every descriptor id: a pending recheck entry implies the descriptor
is not in the failure table; the descriptor is in the failure table
exactly when its most recent notification was a failure; and its
notification stream has no unacceptable adjacent pair.
-/

/-- Per-descriptor invariant over the three observables. -/
def InvAt (w : World) (id : Nat) : Prop :=
  ((w.scheduled_re_checks id).isSome = true → w.current_failures id = none)
  ∧ ((w.current_failures id).isSome = true ↔
      lastIsFail w.notifications id = some true)
  ∧ goodSeq (notifsFor id w.notifications) = true

/-- The invariant at every descriptor id. -/
def Inv (w : World) : Prop := ∀ id, InvAt w id

/-- A concrete descriptor used in the concrete instantiations below. -/
def es0 : ES := ES.mk "binary_sensor.front_door_camera_online" "state" 10 0

/-- A concrete descriptor for the second-failure-in-SUSPECT scenario. -/
def esA : ES := ES.mk "light.silver_lamp" "state" 10 0

/-- A concrete descriptor for the pass-while-SUSPECT scenario. -/
def esB : ES := ES.mk "water_heater.heat_pump_water_heater_gen_4" "state" 10 0

/-- The world after one failing change event for esA: esA is in SUSPECT
state (absent from the failure table, present in the recheck table). -/
def c2w : World := run [Event.change esA false "m"]

/-- The trace behind the C4 instantiation: one failing change event. -/
def c4evts : List Event := [Event.change es0 false "m"]

/-- A world with es0 confirmed FAILED at time 0 and the clock at 7. -/
def c5w : World :=
  run [Event.change es0 false "m", Event.timerFire 0 false "m", Event.tick 7]

/-- A world with es0 confirmed FAILED. -/
def c6w : World := run [Event.change es0 false "m", Event.timerFire 0 false "m"]

/-- A world reached by two failing change events (the second while
SUSPECT, replacing the stored handle) and then the first timer firing:
the shared recheck entry is gone but the second timer is still due. -/
def c10w : World :=
  run [Event.change es0 false "m", Event.change es0 false "m",
       Event.timerFire 0 false "m"]

theorem goodSeq_cons_cons (a b : Notification) (t : List Notification) :
    goodSeq (a :: b :: t) = (sameKindOk a b && goodSeq (b :: t)) := rfl

theorem notifsFor_append (id : Nat) (l : List Notification) (n : Notification) :
    notifsFor id (l ++ [n]) =
      notifsFor id l ++ (if n.tag = id then [n] else []) := by
  by_cases h : n.tag = id <;>
    simp [notifsFor, List.filter_append, List.filter, h]

theorem goodSeq_append (l : List Notification) (n : Notification) :
    goodSeq (l ++ [n]) =
      (goodSeq l &&
        (match l.getLast? with | none => true | some a => sameKindOk a n)) := by
  induction l with
  | nil => simp [goodSeq]
  | cons a l ih =>
    cases l with
    | nil => simp [goodSeq]
    | cons b l' =>
      simp only [List.cons_append] at ih
      simp only [List.cons_append, goodSeq_cons_cons, List.getLast?_cons_cons,
        ih, Bool.and_assoc]

theorem lastIsFail_append_self (l : List Notification) (n : Notification)
    (id : Nat) (h : n.tag = id) :
    lastIsFail (l ++ [n]) id = some n.isFailKind := by
  simp [lastIsFail, notifsFor_append, h]

theorem lastIsFail_append_other (l : List Notification) (n : Notification)
    (id : Nat) (h : n.tag ≠ id) :
    lastIsFail (l ++ [n]) id = lastIsFail l id := by
  simp [lastIsFail, notifsFor_append, h]

theorem goodSeq_notifsFor_append (id : Nat) (l : List Notification)
    (n : Notification)
    (hg : goodSeq (notifsFor id l) = true)
    (hok : n.tag = id → ∀ a, (notifsFor id l).getLast? = some a →
      sameKindOk a n = true) :
    goodSeq (notifsFor id (l ++ [n])) = true := by
  rw [notifsFor_append]
  by_cases h : n.tag = id
  · rw [if_pos h, goodSeq_append, hg]
    cases hl : (notifsFor id l).getLast? with
    | none => simp
    | some a => simp [hok h a hl]
  · simp [h, hg]

/-!
## Branch characterizations of the transition functions
-/

theorem dec_ok_failed (w : World) (es : ES) (msg : String) (t0 : Nat)
    (h : w.current_failures es.id = some t0) :
    do_entity_check w es true msg =
      unschedule_re_check
        { w with
          current_failures := mapErase w.current_failures es.id,
          notifications := w.notifications ++
            [Notification.mk false es.id msg
              (some ((w.now : Int) - (t0 : Int))) false] }
        es := by
  unfold do_entity_check do_ok_notify pop_failed is_currently_failed
  rw [h]
  rfl

theorem dec_ok_not_failed (w : World) (es : ES) (msg : String)
    (h : w.current_failures es.id = none) :
    do_entity_check w es true msg = w := by
  unfold do_entity_check is_currently_failed
  rw [h]
  rfl

theorem dec_fail_failed (w : World) (es : ES) (msg : String) (t0 : Nat)
    (h : w.current_failures es.id = some t0) :
    do_entity_check w es false msg =
      { w with notifications :=
          w.notifications ++ [Notification.mk true es.id msg none true] } := by
  unfold do_entity_check is_currently_failed do_fail_notify
  rw [h]
  rfl

theorem dec_fail_not_failed (w : World) (es : ES) (msg : String)
    (h : w.current_failures es.id = none) :
    do_entity_check w es false msg = schedule_re_check w es := by
  unfold do_entity_check is_currently_failed
  rw [h]
  rfl

theorem re_check_no_entry (w : World) (es : ES) (isOk : Bool) (msg : String)
    (h : w.scheduled_re_checks es.id = none) :
    re_check w es isOk msg = Except.error PyExc.keyError := by
  unfold re_check
  rw [h]

theorem re_check_pass (w : World) (es : ES) (msg : String) (hd : Nat)
    (h : w.scheduled_re_checks es.id = some hd) :
    re_check w es true msg =
      Except.ok
        { w with scheduled_re_checks := mapErase w.scheduled_re_checks es.id } := by
  unfold re_check
  rw [h]
  rfl

theorem re_check_fail (w : World) (es : ES) (msg : String) (hd : Nat)
    (h : w.scheduled_re_checks es.id = some hd)
    (hf : w.current_failures es.id = none) :
    re_check w es false msg =
      Except.ok
        { w with
          scheduled_re_checks := mapErase w.scheduled_re_checks es.id,
          current_failures := mapInsert w.current_failures es.id w.now,
          notifications := w.notifications ++
            [Notification.mk true es.id msg none false] } := by
  unfold re_check add_failed is_currently_failed do_fail_notify
  rw [h]
  simp only [hf]
  rfl

theorem unschedule_current_failures (w : World) (es : ES) :
    (unschedule_re_check w es).current_failures = w.current_failures := by
  unfold unschedule_re_check
  cases w.scheduled_re_checks es.id <;> rfl

theorem unschedule_notifications (w : World) (es : ES) :
    (unschedule_re_check w es).notifications = w.notifications := by
  unfold unschedule_re_check
  cases w.scheduled_re_checks es.id <;> rfl

theorem unschedule_scheduled (w : World) (es : ES) (j : Nat) :
    (unschedule_re_check w es).scheduled_re_checks j =
      if j = es.id then none else w.scheduled_re_checks j := by
  unfold unschedule_re_check
  cases h : w.scheduled_re_checks es.id with
  | none =>
    by_cases hj : j = es.id <;> simp [hj, h]
  | some hdl =>
    by_cases hj : j = es.id <;> simp [hj, cancel_timer, mapErase]

theorem unschedule_timers (w : World) (es : ES) :
    (unschedule_re_check w es).timers =
      match w.scheduled_re_checks es.id with
      | none => w.timers
      | some hdl => w.timers.filter (fun p => p.1 != hdl) := by
  unfold unschedule_re_check
  cases w.scheduled_re_checks es.id <;> rfl

theorem invAt_do_entity_check (w : World) (es : ES) (isOk : Bool) (msg : String)
    (hw : Inv w) (id : Nat) : InvAt (do_entity_check w es isOk msg) id := by
  obtain ⟨h1, h2, h3⟩ := hw id
  cases hF : w.current_failures es.id with
  | none =>
    cases isOk with
    | true =>
      rw [dec_ok_not_failed w es msg hF]
      exact ⟨h1, h2, h3⟩
    | false =>
      rw [dec_fail_not_failed w es msg hF]
      refine ⟨?_, h2, h3⟩
      intro hs
      show w.current_failures id = none
      by_cases hid : id = es.id
      · rw [hid]; exact hF
      · apply h1
        simpa [schedule_re_check, mapInsert, hid] using hs
  | some t0 =>
    cases isOk with
    | true =>
      rw [dec_ok_failed w es msg t0 hF]
      refine ⟨?_, ?_, ?_⟩
      · intro hs
        rw [unschedule_scheduled] at hs
        by_cases hid : id = es.id
        · rw [if_pos hid] at hs; simp at hs
        · rw [if_neg hid] at hs
          rw [unschedule_current_failures]
          show mapErase w.current_failures es.id id = none
          simp only [mapErase, if_neg hid]
          exact h1 hs
      · rw [unschedule_current_failures, unschedule_notifications]
        by_cases hid : id = es.id
        · subst hid
          rw [lastIsFail_append_self _ _ es.id rfl]
          show (mapErase w.current_failures es.id es.id).isSome = true ↔ _
          simp [mapErase]
        · rw [lastIsFail_append_other _ _ id (fun hh => hid hh.symm)]
          show (mapErase w.current_failures es.id id).isSome = true ↔ _
          simp only [mapErase, if_neg hid]
          exact h2
      · rw [unschedule_notifications]
        apply goodSeq_notifsFor_append id _ _ h3
        intro htag a hlast
        have hid : es.id = id := htag
        subst hid
        have hlf : lastIsFail w.notifications es.id = some true :=
          h2.mp (by rw [hF]; rfl)
        unfold lastIsFail at hlf
        rw [hlast] at hlf
        have ha : a.isFailKind = true := by
          simpa using hlf
        simp [sameKindOk, ha]
    | false =>
      rw [dec_fail_failed w es msg t0 hF]
      refine ⟨h1, ?_, ?_⟩
      · by_cases hid : id = es.id
        · subst hid
          rw [lastIsFail_append_self _ _ es.id rfl]
          show (w.current_failures es.id).isSome = true ↔ _
          rw [hF]
          simp
        · rw [lastIsFail_append_other _ _ id (fun hh => hid hh.symm)]
          exact h2
      · apply goodSeq_notifsFor_append id _ _ h3
        intro _ a _
        simp [sameKindOk]

theorem invAt_re_check_result (w w1 : World) (es : ES) (isOk : Bool)
    (msg : String)
    (hfail : w1.current_failures = w.current_failures)
    (hsched : w1.scheduled_re_checks = w.scheduled_re_checks)
    (hnot : w1.notifications = w.notifications)
    (hw : Inv w) (id : Nat) :
    InvAt (match re_check w1 es isOk msg with
           | Except.ok w2 => w2
           | Except.error _ => w1) id := by
  have hw1 : Inv w1 := by
    intro j
    have hj := hw j
    unfold InvAt at hj ⊢
    rw [hfail, hsched, hnot]
    exact hj
  obtain ⟨h1, h2, h3⟩ := hw1 id
  cases hS : w1.scheduled_re_checks es.id with
  | none =>
    rw [re_check_no_entry w1 es isOk msg hS]
    exact ⟨h1, h2, h3⟩
  | some hd =>
    cases isOk with
    | true =>
      rw [re_check_pass w1 es msg hd hS]
      refine ⟨?_, h2, h3⟩
      intro hs
      show w1.current_failures id = none
      by_cases hid : id = es.id
      · subst hid
        exact (hw1 es.id).1 (by rw [hS]; rfl)
      · apply h1
        simpa [mapErase, hid] using hs
    | false =>
      have hf : w1.current_failures es.id = none :=
        (hw1 es.id).1 (by rw [hS]; rfl)
      rw [re_check_fail w1 es msg hd hS hf]
      refine ⟨?_, ?_, ?_⟩
      · intro hs
        by_cases hid : id = es.id
        · rw [hid] at hs
          simp [mapErase] at hs
        · show mapInsert w1.current_failures es.id w1.now id = none
          simp only [mapInsert, if_neg hid]
          apply h1
          simpa [mapErase, hid] using hs
      · by_cases hid : id = es.id
        · subst hid
          rw [lastIsFail_append_self _ _ es.id rfl]
          show (mapInsert w1.current_failures es.id w1.now es.id).isSome = true ↔ _
          simp [mapInsert]
        · rw [lastIsFail_append_other _ _ id (fun hh => hid hh.symm)]
          show (mapInsert w1.current_failures es.id w1.now id).isSome = true ↔ _
          simp only [mapInsert, if_neg hid]
          exact h2
      · apply goodSeq_notifsFor_append id _ _ h3
        intro htag a hlast
        have hid : es.id = id := htag
        subst hid
        have hnf : ¬ lastIsFail w1.notifications es.id = some true := by
          intro hc
          have hcontra := h2.mpr hc
          rw [hf] at hcontra
          simp at hcontra
        cases hA : a.isFailKind with
        | false => simp [sameKindOk, hA]
        | true =>
          exfalso
          apply hnf
          unfold lastIsFail
          rw [hlast]
          simp [hA]

theorem invAt_step (w : World) (e : Event) (hw : Inv w) (id : Nat) :
    InvAt (step w e) id := by
  cases e with
  | tick dt => exact hw id
  | change es isOk msg => exact invAt_do_entity_check w es isOk msg hw id
  | timerFire hdl isOk msg =>
    cases hT : timerLookup w.timers hdl with
    | none =>
      simp only [step, hT]
      exact hw id
    | some es =>
      simp only [step, hT]
      exact invAt_re_check_result w
        { w with timers := w.timers.filter (fun p => p.1 != hdl) }
        es isOk msg rfl rfl rfl hw id

theorem inv_init : Inv initWorld := by
  intro id
  refine ⟨?_, ?_, ?_⟩ <;> simp [initWorld, lastIsFail, notifsFor, goodSeq]

theorem inv_foldl (evts : List Event) :
    ∀ w, Inv w → Inv (evts.foldl step w) := by
  induction evts with
  | nil => intro w hw; exact hw
  | cons e t ih =>
    intro w hw
    exact ih _ (fun id => invAt_step w e hw id)

theorem inv_run (evts : List Event) : Inv (run evts) :=
  inv_foldl evts initWorld inv_init

/-!
## The claims
-/

/-- C1: over every sequence of change events and timer firings, the
notification stream of each descriptor has no two adjacent notifications
of the same kind, except a failure notification re-emitted while the
descriptor was already in FAILED state (the wasAlreadyFailed flag
records whether the descriptor was in the failure table when the
triggering evaluation was handled). -/
theorem C1_no_consecutive_same_kind_notifications
    (evts : List Event) (id : Nat) :
    goodSeq (notifsFor id (run evts).notifications) = true :=
  (inv_run evts id).2.2

/-- C2 counterexample: after one failing change event esA is in SUSPECT
state (no failure entry, recheck entry with handle 0), yet a second
failing change event is not a no-op: it registers a second platform
timer (two are then outstanding for the descriptor) and overwrites the
stored handle with the new one. -/
theorem C2_counterexample :
    c2w.current_failures 0 = none
    ∧ c2w.scheduled_re_checks 0 = some 0
    ∧ (run [Event.change esA false "m", Event.change esA false "m"]).timers =
        [(0, esA), (1, esA)]
    ∧ (run [Event.change esA false "m",
            Event.change esA false "m"]).scheduled_re_checks 0 = some 1 :=
  ⟨rfl, rfl, by decide, rfl⟩

/-- C2 (amended): a FAIL evaluation arriving while the descriptor is in
SUSPECT state is not a no-op: do_entity_check schedules a fresh debounce
timer and overwrites the stored recheck handle with the new one; the old
timer is not canceled and stays outstanding, so more than one timer can
be outstanding for a descriptor. -/
theorem C2_amended_fail_in_suspect_schedules_again
    (w : World) (es : ES) (msg : String) (hd : Nat)
    (hfail : w.current_failures es.id = none)
    (hsusp : w.scheduled_re_checks es.id = some hd) :
    do_entity_check w es false msg =
      { w with
        timers := w.timers ++ [(w.nextHandle, es)],
        nextHandle := w.nextHandle + 1,
        scheduled_re_checks :=
          mapInsert w.scheduled_re_checks es.id w.nextHandle } := by
  rw [dec_fail_not_failed w es msg hfail]
  rfl

/-- Witness for the amended C2 at the concrete SUSPECT world c2w. -/
theorem C2_amended_witness :
    c2w.current_failures 0 = none
    ∧ c2w.scheduled_re_checks 0 = some 0
    ∧ do_entity_check c2w esA false "m" =
        { c2w with
          timers := c2w.timers ++ [(c2w.nextHandle, esA)],
          nextHandle := c2w.nextHandle + 1,
          scheduled_re_checks :=
            mapInsert c2w.scheduled_re_checks esA.id c2w.nextHandle } :=
  ⟨rfl, rfl,
    C2_amended_fail_in_suspect_schedules_again c2w esA "m" 0 rfl rfl⟩

/-- C3 counterexample: after one failing change event esB is in SUSPECT
state, and a PASS evaluation then leaves the world completely unchanged:
the pending recheck entry is still present (and the platform timer still
outstanding) instead of being canceled. -/
theorem C3_counterexample :
    (run [Event.change esB false "m"]).scheduled_re_checks 0 = some 0
    ∧ (run [Event.change esB false "m"]).current_failures 0 = none
    ∧ do_entity_check (run [Event.change esB false "m"]) esB true "ok" =
        run [Event.change esB false "m"]
    ∧ (do_entity_check (run [Event.change esB false "m"]) esB true
        "ok").scheduled_re_checks 0 = some 0 :=
  ⟨rfl, rfl, rfl, rfl⟩

/-- C3 (amended): a PASS evaluation for a descriptor that is not in the
failure table (which covers the SUSPECT state) is a no-op: no
notification, and the pending debounce timer is neither canceled nor its
recheck entry removed; the outcome is decided when the timer fires. -/
theorem C3_amended_pass_in_suspect_is_noop (w : World) (es : ES)
    (msg : String) (hfail : w.current_failures es.id = none) :
    do_entity_check w es true msg = w :=
  dec_ok_not_failed w es msg hfail

/-- Witness for the amended C3 at a concrete SUSPECT world. -/
theorem C3_amended_witness :
    (run [Event.change esB false "m"]).current_failures 0 = none
    ∧ do_entity_check (run [Event.change esB false "m"]) esB true "ok" =
        run [Event.change esB false "m"] :=
  ⟨rfl, C3_amended_pass_in_suspect_is_noop
    (run [Event.change esB false "m"]) esB "ok" rfl⟩

/-- C4: in every reachable world with a pending recheck entry for the
descriptor, the timer callback removes that entry; on PASS that removal
is the only change and nothing is notified; on FAIL it additionally
inserts a failure-table entry keyed by the descriptor id carrying the
current time, and appends exactly one failure notification tagged with
that id. -/
theorem C4_re_check_behavior (evts : List Event) (es : ES) (msg : String)
    (hd : Nat) (h : (run evts).scheduled_re_checks es.id = some hd) :
    re_check (run evts) es true msg =
      Except.ok { run evts with
        scheduled_re_checks := mapErase (run evts).scheduled_re_checks es.id }
    ∧ re_check (run evts) es false msg =
      Except.ok { run evts with
        scheduled_re_checks := mapErase (run evts).scheduled_re_checks es.id,
        current_failures :=
          mapInsert (run evts).current_failures es.id (run evts).now,
        notifications := (run evts).notifications ++
          [Notification.mk true es.id msg none false] } :=
  ⟨re_check_pass (run evts) es msg hd h,
   re_check_fail (run evts) es msg hd h
     ((inv_run evts es.id).1 (by rw [h]; rfl))⟩

/-- Witness for C4 at the concrete one-failing-event trace. -/
theorem C4_witness :
    (run c4evts).scheduled_re_checks 0 = some 0
    ∧ re_check (run c4evts) es0 true "back" =
        Except.ok { run c4evts with
          scheduled_re_checks :=
            mapErase (run c4evts).scheduled_re_checks 0 } :=
  ⟨rfl, (C4_re_check_behavior c4evts es0 "back" 0 rfl).1⟩

/-- C5: a PASS evaluation for a descriptor in FAILED state appends
exactly one recovery notification whose elapsed field equals the current
time minus the stored failure timestamp, removes the failure entry,
clears the recheck entry and cancels a stray pending timer when one
exists, leaving the descriptor in OK state. -/
theorem C5_recovery_on_pass (w : World) (es : ES) (msg : String) (t0 : Nat)
    (h : w.current_failures es.id = some t0) :
    (do_entity_check w es true msg).notifications =
      w.notifications ++
        [Notification.mk false es.id msg
          (some ((w.now : Int) - (t0 : Int))) false]
    ∧ (do_entity_check w es true msg).current_failures es.id = none
    ∧ (do_entity_check w es true msg).scheduled_re_checks es.id = none
    ∧ (∀ hd, w.scheduled_re_checks es.id = some hd →
        (do_entity_check w es true msg).timers =
          w.timers.filter (fun p => p.1 != hd)) := by
  rw [dec_ok_failed w es msg t0 h]
  refine ⟨?_, ?_, ?_, ?_⟩
  · rw [unschedule_notifications]
  · rw [unschedule_current_failures]
    show mapErase w.current_failures es.id es.id = none
    simp [mapErase]
  · rw [unschedule_scheduled]
    simp
  · intro hd hs
    rw [unschedule_timers]
    show (match w.scheduled_re_checks es.id with
          | none => w.timers
          | some hdl => w.timers.filter (fun p => p.1 != hdl)) = _
    rw [hs]

/-- Witness for C5 at the concrete FAILED world c5w
(failed at time 0, clock at 7). -/
theorem C5_witness :
    c5w.current_failures 0 = some 0
    ∧ (do_entity_check c5w es0 true "back").notifications =
        c5w.notifications ++
          [Notification.mk false 0 "back" (some 7) false] :=
  ⟨rfl, (C5_recovery_on_pass c5w es0 "back" 0 rfl).1⟩

/-- C6: a FAIL evaluation for a descriptor in FAILED state appends
exactly one failure notification and changes nothing else: the failure
entry and its timestamp, the recheck table, the platform timers and the
clock are all untouched and no timer is scheduled. -/
theorem C6_fail_while_failed_only_notifies (w : World) (es : ES)
    (msg : String) (t0 : Nat) (h : w.current_failures es.id = some t0) :
    do_entity_check w es false msg =
      { w with notifications :=
          w.notifications ++ [Notification.mk true es.id msg none true] } :=
  dec_fail_failed w es msg t0 h

/-- Witness for C6 at the concrete FAILED world c6w. -/
theorem C6_witness :
    c6w.current_failures 0 = some 0
    ∧ do_entity_check c6w es0 false "still" =
        { c6w with notifications :=
            c6w.notifications ++
              [Notification.mk true 0 "still" none true] } :=
  ⟨rfl, C6_fail_while_failed_only_notifies c6w es0 "still" 0 rfl⟩

/-- C7: in it_is.get_is_ok a converter raising ValueError makes the
evaluation proceed with the raw value (so a subsequent TypeError from
the comparison yields FAIL, and a successful comparison yields its own
verdict), and concretely the greater-than-20 checker with the
int-of-float converter passes on raw value 21.9 and fails on raw value
bad without an exception escaping. -/
theorem C7_checker_error_handling :
    (∀ (conv : PyVal → Except PyExc PyVal)
      (op : PyVal → PyVal → Except PyExc Bool) (exp act : PyVal),
      conv act = Except.error PyExc.valueError →
      op act exp = Except.error PyExc.typeError →
      it_is_get_is_ok conv op exp act = Except.ok false)
    ∧ (∀ (conv : PyVal → Except PyExc PyVal)
      (op : PyVal → PyVal → Except PyExc Bool) (exp act : PyVal) (b : Bool),
      conv act = Except.error PyExc.valueError →
      op act exp = Except.ok b →
      it_is_get_is_ok conv op exp act = Except.ok b)
    ∧ it_is_get_is_ok intFloatConverter pyGt (PyVal.int 20)
        (PyVal.str "21.9") = Except.ok true
    ∧ it_is_get_is_ok intFloatConverter pyGt (PyVal.int 20)
        (PyVal.str "bad") = Except.ok false := by
  refine ⟨?_, ?_, rfl, rfl⟩
  · intro conv op exp act hc ho
    unfold it_is_get_is_ok
    simp only [hc, ho]
  · intro conv op exp act b hc ho
    unfold it_is_get_is_ok
    simp only [hc, ho]

/-- Witness for C7: the generic ValueError-then-TypeError law applied at
the concrete converter, operator and malformed raw value. -/
theorem C7_witness :
    intFloatConverter (PyVal.str "bad") = Except.error PyExc.valueError
    ∧ pyGt (PyVal.str "bad") (PyVal.int 20) = Except.error PyExc.typeError
    ∧ it_is_get_is_ok intFloatConverter pyGt (PyVal.int 20)
        (PyVal.str "bad") = Except.ok false :=
  ⟨rfl, rfl,
    C7_checker_error_handling.1 intFloatConverter pyGt (PyVal.int 20)
      (PyVal.str "bad") rfl rfl⟩

/-- C8: the resolver returns the attribute value when every path segment
resolves, returns the supplied default when any segment is missing, and
never raises once a default is supplied; concretely, resolving
attributes.battery against a snapshot lacking attributes returns the
NOT_FOUND sentinel. -/
theorem C8_resolver_defaults :
    (∀ (obj : Snap) (path : String) (d v : Snap),
      getAttrPath obj (splitPath path) = Except.ok v →
      get_nested_attr obj path (some d) = Except.ok v)
    ∧ (∀ (obj : Snap) (path : String) (d : Snap) (e : PyExc),
      getAttrPath obj (splitPath path) = Except.error e →
      get_nested_attr obj path (some d) = Except.ok d)
    ∧ (∀ (obj : Snap) (path : String) (d : Snap),
      ∃ r, get_nested_attr obj path (some d) = Except.ok r)
    ∧ get_nested_attr (Snap.obj [("state", Snap.val (PyVal.str "on"))])
        "attributes.battery" (some NOT_FOUND) = Except.ok NOT_FOUND := by
  refine ⟨?_, ?_, ?_, rfl⟩
  · intro obj path d v hv
    unfold get_nested_attr
    rw [hv]
  · intro obj path d e he
    unfold get_nested_attr
    rw [he]
  · intro obj path d
    unfold get_nested_attr
    cases getAttrPath obj (splitPath path) with
    | ok v => exact ⟨v, rfl⟩
    | error e => exact ⟨d, rfl⟩

/-- Witness for C8: the missing-segment law applied at the concrete
snapshot without an attributes field. -/
theorem C8_witness :
    getAttrPath (Snap.obj [("state", Snap.val (PyVal.str "on"))])
        (splitPath "attributes.battery") = Except.error PyExc.attributeError
    ∧ get_nested_attr (Snap.obj [("state", Snap.val (PyVal.str "on"))])
        "attributes.battery" (some NOT_FOUND) = Except.ok NOT_FOUND :=
  ⟨rfl,
    C8_resolver_defaults.2.1 (Snap.obj [("state", Snap.val (PyVal.str "on"))])
      "attributes.battery" NOT_FOUND PyExc.attributeError rfl⟩

/-- C9: for every on-fraction strictly between 0 and 1 and every minimum
on-duration, get_on_off_time returns on-time m and off-time
m times (1 - p) over p, over exact rational arithmetic. -/
theorem C9_duty_cycle_times (p m : Rat) (hp0 : 0 < p) (hp1 : p < 1) :
    get_on_off_time p m = (m, m * ((1 - p) / p)) := by
  unfold get_on_off_time get_seconds_off_per_on_second SECONDS_PER_DAY
  have hp : p ≠ 0 := ne_of_gt hp0
  rw [Prod.mk.injEq]
  refine ⟨rfl, ?_⟩
  field_simp
  ring

/-- Witness for C9 at p = one half and m = 60. -/
theorem C9_witness :
    (0 : Rat) < 1 / 2 ∧ (1 / 2 : Rat) < 1
    ∧ get_on_off_time (1 / 2) 60 = (60, 60 * ((1 - 1 / 2) / (1 / 2))) :=
  ⟨one_half_pos, one_half_lt_one,
    C9_duty_cycle_times (1 / 2) 60 one_half_pos one_half_lt_one⟩

/-- C10: the timer callback presupposes its recheck entry: when the
entry for the descriptor id is absent at firing time, re_check raises
KeyError (from the unconditional pop) and produces no verdict. -/
theorem C10_re_check_requires_entry (w : World) (es : ES) (isOk : Bool)
    (msg : String) (h : w.scheduled_re_checks es.id = none) :
    re_check w es isOk msg = Except.error PyExc.keyError :=
  re_check_no_entry w es isOk msg h

/-- Witness for C10 at the concrete world c10w, reached exactly by the
scenario in the claim: a second FAIL in SUSPECT replaced the stored
handle, the first timer firing consumed the shared entry, and the second
timer firing then hits the missing entry. -/
theorem C10_witness :
    c10w.scheduled_re_checks 0 = none
    ∧ re_check c10w es0 false "m" = Except.error PyExc.keyError :=
  ⟨rfl, C10_re_check_requires_entry c10w es0 false "m" rfl⟩

end AppMon
